import Mathlib

/-!
Verification of the optimistic client-side synchronization engine of the
dream-journal repository (the `useEntries` hook, optimistic variant in
`src/unnamed/part_004`, plus the presentation-layer handlers in
`src/unnamed/part_003` and `src/components/comments/CommentList.tsx`).

The engine owns an in-memory list of entries and exposes mutation
operations that apply optimistic local updates, issue a remote call, and
commit or roll back depending on the remote outcome.  Remote calls are
modelled by passing their responses as explicit arguments; timestamps
(`created_at` strings compared through `new Date(...).getTime()`) are
modelled by their numeric time value.
-/

namespace DreamJournal

/-- A reaction kind, the `"love" | "hate"` union of the source. -/
inductive Reaction where
  | love
  | hate
deriving DecidableEq

/-- The `otherType` computation: `reactionType === "love" ? "hate" : "love"`. -/
def Reaction.other : Reaction → Reaction
  | .love => .hate
  | .hate => .love

/-- The `Comment` type of `useEntries.ts`.  `created_at` is modelled by the
numeric value of `new Date(created_at).getTime()`. -/
structure Comment where
  id : String
  entry_id : String
  text : String
  username : String
  created_at : Nat
  user_id : String
deriving DecidableEq

/-- The `Entry` type of `useEntries.ts` (optimistic variant, which carries
`userReaction?: "love" | "hate" | null`, modelled as `Option Reaction`). -/
structure Entry where
  id : String
  title : String
  text : String
  date : String
  username : String
  created_at : Nat
  image_url : Option String
  love_count : Int
  hate_count : Int
  comments : List Comment
  user_id : String
  userReaction : Option Reaction
deriving DecidableEq

/-- Dynamic field read `entry[`${reactionType}_count`]`. -/
def Entry.countOf (e : Entry) : Reaction → Int
  | .love => e.love_count
  | .hate => e.hate_count

/-- Dynamic field write `{ ...entry, [`${reactionType}_count`]: v }`. -/
def Entry.setCount (e : Entry) : Reaction → Int → Entry
  | .love, v => { e with love_count := v }
  | .hate, v => { e with hate_count := v }

/-- Field write `{ ...entry, userReaction: r }`. -/
def Entry.withReaction (e : Entry) (r : Option Reaction) : Entry :=
  { e with userReaction := r }

/-- Outcome of a remote (Supabase) call: data, or an error with a message. -/
inductive RemoteResp (α : Type) where
  | ok (a : α)
  | err (msg : String)
deriving DecidableEq

/-- The `{ message }` error object surfaced by every engine operation. -/
structure OpError where
  message : String
deriving DecidableEq

/-- The `{ success, error }` result of `toggleReaction` / `deleteEntry` /
`deleteComment`. -/
structure MutResult where
  success : Bool
  error : Option OpError
deriving DecidableEq

/-- A row of the `entry_actions` table (one reaction record per user per
entry); the count columns are nullable in the store. -/
structure EntryAction where
  id : String
  entry_id : String
  user_id : String
  love_count : Option Int
  hate_count : Option Int
deriving DecidableEq

/-- Dynamic read `existingAction[`${reactionType}_count`]`. -/
def EntryAction.countOf (a : EntryAction) : Reaction → Option Int
  | .love => a.love_count
  | .hate => a.hate_count

/-- JavaScript `x || 0` applied to a nullable numeric column. -/
def jsOrZero : Option Int → Int
  | none => 0
  | some v => v

/-- The per-entry optimistic update inside `toggleReaction`'s first
`setEntries` (source lines 364-404 of the optimistic `useEntries.ts`):
untouched unless the id matches; otherwise remove the same reaction,
switch from the opposite reaction, or add a new reaction. -/
def toggleReactionStep (reactionType : Reaction) (entryId : String)
    (entry : Entry) : Entry :=
  if entry.id ≠ entryId then entry
  else
    let otherType := reactionType.other
    if entry.userReaction = some reactionType then
      (entry.setCount reactionType
        (max 0 (entry.countOf reactionType - 1))).withReaction none
    else if entry.userReaction = some otherType then
      ((entry.setCount otherType
        (max 0 (entry.countOf otherType - 1))).setCount reactionType
          (entry.countOf reactionType + 1)).withReaction (some reactionType)
    else
      (entry.setCount reactionType
        (entry.countOf reactionType + 1)).withReaction (some reactionType)

/-- The `updates` object sent by `toggleReaction` when a reaction record
already exists: the requested column is toggled to 0 or 1, the opposite
column is reset to 0. -/
structure ReactionUpdatePayload where
  love_count : Int
  hate_count : Int
deriving DecidableEq

def ReactionUpdatePayload.countOf (p : ReactionUpdatePayload) : Reaction → Int
  | .love => p.love_count
  | .hate => p.hate_count

/-- Builds `{ [`${reactionType}_count`]: requested, [`${otherType}_count`]: other }`. -/
def mkUpdatePayload (reactionType : Reaction) (requested other : Int) :
    ReactionUpdatePayload :=
  match reactionType with
  | .love => ⟨requested, other⟩
  | .hate => ⟨other, requested⟩

/-- The update issued when `existingAction` is present (source lines
418-424): `currentCount = existingAction[`${rt}_count`] || 0`, requested
column `currentCount > 0 ? 0 : 1`, opposite column `0`. -/
def toggleUpdatePayload (existingAction : EntryAction)
    (reactionType : Reaction) : ReactionUpdatePayload :=
  let currentCount := jsOrZero (existingAction.countOf reactionType)
  mkUpdatePayload reactionType (if currentCount > 0 then 0 else 1) 0

/-- The insert issued when no reaction record exists (source lines
433-439): only `entry_id`, `user_id` and the requested count column are
set; the opposite column is absent from the payload. -/
structure ReactionInsertPayload where
  entry_id : String
  user_id : String
  love_count : Option Int
  hate_count : Option Int
deriving DecidableEq

def ReactionInsertPayload.countOf (p : ReactionInsertPayload) :
    Reaction → Option Int
  | .love => p.love_count
  | .hate => p.hate_count

def toggleInsertPayload (entryId userId : String) (reactionType : Reaction) :
    ReactionInsertPayload :=
  match reactionType with
  | .love => ⟨entryId, userId, some 1, none⟩
  | .hate => ⟨entryId, userId, none, some 1⟩

/-- The states an optimistic operation takes the collection through:
`optimistic` is the collection rendered immediately (before the remote
call resolves) and `final` is the collection once the operation settled. -/
structure OpOutcome where
  optimistic : List Entry
  final : List Entry
  result : MutResult
deriving DecidableEq

/-- `toggleReaction(entryId, reactionType, userId)` (source lines 355-456
of the optimistic `useEntries.ts`): snapshot, optimistic per-entry update,
then a remote read of the viewer's reaction record followed by an update
(record present) or an insert (record absent); the snapshot is restored on
any remote failure.  The three remote responses are passed explicitly. -/
def toggleReaction (entries : List Entry) (entryId : String)
    (reactionType : Reaction) (userId : String)
    (fetchResp : RemoteResp (Option EntryAction))
    (updateResp : RemoteResp Unit) (insertResp : RemoteResp Unit) :
    OpOutcome :=
  let previousEntries := entries
  let optimistic := entries.map (toggleReactionStep reactionType entryId)
  match fetchResp with
  | .err msg => ⟨optimistic, previousEntries, ⟨false, some ⟨msg⟩⟩⟩
  | .ok existingAction =>
    match existingAction with
    | some _ =>
      match updateResp with
      | .err msg => ⟨optimistic, previousEntries, ⟨false, some ⟨msg⟩⟩⟩
      | .ok _ => ⟨optimistic, optimistic, ⟨true, none⟩⟩
    | none =>
      match insertResp with
      | .err msg => ⟨optimistic, previousEntries, ⟨false, some ⟨msg⟩⟩⟩
      | .ok _ => ⟨optimistic, optimistic, ⟨true, none⟩⟩

/-- `deleteEntry(id)` (source lines 325-349): snapshot, optimistic filter,
remote delete; snapshot restored on failure. -/
def deleteEntry (entries : List Entry) (id : String)
    (deleteResp : RemoteResp Unit) : OpOutcome :=
  let previousEntries := entries
  let optimistic := entries.filter (fun e => e.id ≠ id)
  match deleteResp with
  | .ok _ => ⟨optimistic, optimistic, ⟨true, none⟩⟩
  | .err msg => ⟨optimistic, previousEntries, ⟨false, some ⟨msg⟩⟩⟩

/-- The draft accepted by `createEntry`
(`Omit<Entry, "id" | "username" | "created_at" | counts | comments>`). -/
structure Draft where
  title : String
  text : String
  date : String
  image_url : Option String
  user_id : String
deriving DecidableEq

/-- The row returned by the insert in `createEntry` (joined with
`users_public!inner(username)`, which can still be null at the type the
source casts to). -/
structure EntryInsertRow where
  id : String
  title : String
  text : String
  date : String
  created_at : Nat
  image_url : Option String
  user_id : String
  username : Option String
deriving DecidableEq

/-- The `{ data, error }` result plus the resulting collection for
`createEntry`. -/
structure CreateOutcome where
  final : List Entry
  data : Option Entry
  error : Option OpError
deriving DecidableEq

/-- The authoritative entry built from the insert response (source lines
244-256): id/createdAt from the store, zero counts, empty comments. -/
def entryFromRow (typedData : EntryInsertRow) : Entry :=
  { id := typedData.id
    title := typedData.title
    text := typedData.text
    date := typedData.date
    username := typedData.username.getD "Anonymous"
    created_at := typedData.created_at
    image_url := typedData.image_url
    love_count := 0
    hate_count := 0
    comments := []
    user_id := typedData.user_id
    userReaction := none }

/-- `createEntry(entryData)` (source lines 204-267): no validation, the
insert is sent unconditionally; on success the new entry is prepended; on
failure (error or `!data`) the collection is untouched. -/
def createEntry (entries : List Entry) (entryData : Draft)
    (insertResp : RemoteResp (Option EntryInsertRow)) : CreateOutcome :=
  match insertResp with
  | .err msg => ⟨entries, none, some ⟨msg⟩⟩
  | .ok none => ⟨entries, none, some ⟨"No data returned from insert"⟩⟩
  | .ok (some typedData) =>
    let newEntry := entryFromRow typedData
    ⟨newEntry :: entries, some newEntry, none⟩

/-- The partial update accepted by `updateEntry`
(`Partial<Pick<Entry, "title" | "text" | "date" | "image_url">>`);
`none` means the field is absent from the object. -/
structure UpdateFields where
  title : Option String
  text : Option String
  date : Option String
  image_url : Option String
deriving DecidableEq

/-- The part of the update response the source actually reads
(`typedData.users_public?.username`). -/
structure UpdateRow where
  username : Option String
deriving DecidableEq

/-- The spread `{ ...entry, ...updates }`. -/
def applyUpdates (entry : Entry) (updates : UpdateFields) : Entry :=
  { entry with
    title := updates.title.getD entry.title
    text := updates.text.getD entry.text
    date := updates.date.getD entry.date
    image_url :=
      match updates.image_url with
      | some u => some u
      | none => entry.image_url }

/-- Result of `updateEntry`: the collection, whether data was returned,
and the error. -/
structure UpdateOutcome where
  final : List Entry
  dataReturned : Bool
  error : Option OpError
deriving DecidableEq

/-- `updateEntry(id, updates)` (source lines 273-319): remote update first
(no local existence check), then on success the by-id merge
`{ ...entry, ...updates, username }`; on failure the collection is
untouched. -/
def updateEntry (entries : List Entry) (id : String) (updates : UpdateFields)
    (updateResp : RemoteResp (Option UpdateRow)) : UpdateOutcome :=
  match updateResp with
  | .err msg => ⟨entries, false, some ⟨msg⟩⟩
  | .ok none => ⟨entries, false, some ⟨"No data returned from update"⟩⟩
  | .ok (some typedData) =>
    ⟨entries.map (fun entry =>
      if entry.id = id then
        { applyUpdates entry updates with
          username := typedData.username.getD entry.username }
      else entry), true, none⟩

/-- The row returned by the comment insert in `addComment`. -/
structure CommentInsertRow where
  id : String
  text : String
  created_at : Nat
  user_id : String
  username : Option String
deriving DecidableEq

/-- The comment built from the insert response (source lines 495-502). -/
def commentFromRow (entryId : String) (typedData : CommentInsertRow) :
    Comment :=
  { id := typedData.id
    entry_id := entryId
    text := typedData.text
    username := typedData.username.getD "Anonymous"
    created_at := typedData.created_at
    user_id := typedData.user_id }

/-- Result of `addComment`. -/
structure AddCommentOutcome where
  final : List Entry
  data : Option Comment
  error : Option OpError
deriving DecidableEq

/-- `addComment(entryId, text, userId)` (source lines 462-521): no
validation in the engine, not optimistic — the comment is prepended to the
target entry's list only after the remote insert returns. -/
def addComment (entries : List Entry) (entryId : String) (text : String)
    (userId : String) (insertResp : RemoteResp (Option CommentInsertRow)) :
    AddCommentOutcome :=
  match insertResp with
  | .err msg => ⟨entries, none, some ⟨msg⟩⟩
  | .ok none => ⟨entries, none, some ⟨"No data returned from insert"⟩⟩
  | .ok (some typedData) =>
    let newComment := commentFromRow entryId typedData
    ⟨entries.map (fun entry =>
      if entry.id = entryId then
        { entry with comments := newComment :: entry.comments }
      else entry), some newComment, none⟩

/-- A row of the joined `entry_actions` relation as fetched. -/
structure RawAction where
  love_count : Option Int
  hate_count : Option Int
  user_id : String
deriving DecidableEq

/-- A row of the joined `comments` relation as fetched. -/
structure RawComment where
  id : String
  text : String
  created_at : Nat
  user_id : String
  username : Option String
deriving DecidableEq

/-- A row of the `entries` query in `fetchEntries`, with its joined
relations (both nullable at the cast type). -/
structure RawEntry where
  id : String
  title : String
  text : String
  date : String
  created_at : Nat
  image_url : Option String
  user_id : String
  username : Option String
  entry_actions : Option (List RawAction)
  comments : Option (List RawComment)
deriving DecidableEq

/-- JS comparator `(a, b) => new Date(b.created_at).getTime() - new
Date(a.created_at).getTime()` as a boolean "a comes before b" relation:
newest first. -/
def commentLeNewest (a b : Comment) : Bool :=
  b.created_at ≤ a.created_at

/-- `comments.sort(comparator)` in `fetchEntries` (a stable sort, newest
first). -/
def sortCommentsNewestFirst (l : List Comment) : List Comment :=
  l.mergeSort commentLeNewest

/-- `typedEntry.entry_actions?.reduce((sum, a) => sum + (a.love_count || 0), 0) || 0`. -/
def aggregateCount (actions : Option (List RawAction))
    (pick : RawAction → Option Int) : Int :=
  match actions with
  | none => 0
  | some l => l.foldl (fun sum action => sum + jsOrZero (pick action)) 0

/-- `typedEntry.entry_actions?.find(a => a.user_id === currentUserId)`.
In the source `currentUserId` is `entry.userId`, a property absent from
the response row, so it is `undefined` and the comparison with a string
`user_id` never holds; the argument is kept to mirror the call. -/
def findUserAction (actions : Option (List RawAction))
    (currentUserId : Option String) : Option RawAction :=
  (actions.getD []).find? (fun a => some a.user_id = currentUserId)

/-- The per-row transform of `fetchEntries` (source lines 129-183). -/
def transformRow (row : RawEntry) : Entry :=
  let currentUserId : Option String := none
  let userAction := findUserAction row.entry_actions currentUserId
  let userReaction : Option Reaction :=
    match userAction with
    | some a =>
      if a.love_count = some 1 then some .love
      else if a.hate_count = some 1 then some .hate
      else none
    | none => none
  { id := row.id
    title := row.title
    text := row.text
    date := row.date
    username := row.username.getD "Anonymous"
    created_at := row.created_at
    image_url := row.image_url
    love_count := aggregateCount row.entry_actions (fun a => a.love_count)
    hate_count := aggregateCount row.entry_actions (fun a => a.hate_count)
    comments := sortCommentsNewestFirst
      ((row.comments.getD []).map (fun c =>
        { id := c.id
          entry_id := row.id
          text := c.text
          username := c.username.getD "Anonymous"
          created_at := c.created_at
          user_id := c.user_id }))
    user_id := row.user_id
    userReaction := userReaction }

def transformRows (rows : List RawEntry) : List Entry :=
  rows.map transformRow

/-- The `{ message, code? }` fetch error state. -/
structure FetchError where
  message : String
  code : Option String
deriving DecidableEq

/-- The hook's state triple: `entries`, `loading`, `error`. -/
structure HookState where
  entries : List Entry
  loading : Bool
  error : Option FetchError
deriving DecidableEq

/-- `fetchEntries()` (source lines 98-193): `setLoading(true)` and
`setError(null)` on entry, a single joined query (whose response is passed
in; the query orders rows by `created_at` descending), atomic replacement
of the collection on success, error recording on failure, and
`setLoading(false)` in the `finally` block. -/
def fetchEntries (s : HookState)
    (resp : RemoteResp (Option (List RawEntry))) : HookState :=
  let s1 : HookState := { s with loading := true, error := none }
  match resp with
  | .err msg => { s1 with error := some ⟨msg, none⟩, loading := false }
  | .ok entriesData =>
    { s1 with entries := transformRows (entriesData.getD []), loading := false }

/-- JavaScript `String.prototype.trim`, modelled on the character list:
whitespace is removed from both ends. -/
def jsTrim (s : String) : String :=
  String.mk
    (((s.data.dropWhile Char.isWhitespace).reverse.dropWhile
      Char.isWhitespace).reverse)

/-- What a presentation-layer handler did: short-circuit with an error
message (no engine call, no state change), or invoke the engine with the
given arguments. -/
inductive HandlerAction (α : Type) where
  | blocked (msg : String)
  | proceed (call : α)
deriving DecidableEq

/-- `handleCreateEntry` in `EntriesView` (`src/unnamed/part_003`, lines
58-99): rejects a blank title, then a missing user, before calling
`createEntry` with the trimmed fields. -/
def handleCreateEntry (title text : String) (user : Option String)
    (today : String) (previewImage : Option String) : HandlerAction Draft :=
  if jsTrim title = "" then .blocked "Please enter a title"
  else
    match user with
    | none => .blocked "Please sign in to create an entry"
    | some uid =>
      .proceed
        { title := jsTrim title
          text := jsTrim text
          date := today
          image_url := previewImage
          user_id := uid }

/-- The arguments `handleAddComment` passes to `onAddComment`. -/
structure AddCommentCall where
  entryId : String
  text : String
  userId : String
deriving DecidableEq

/-- `handleAddComment` in `CommentList.tsx` (lines 21-57): rejects empty
text, then a missing user, then a missing capability, before calling
`onAddComment` with the (possibly @mention-prefixed) text. -/
def handleAddComment (entryId : String) (commentText : String)
    (userId : Option String) (replyingTo : Option Comment)
    (hasOnAddComment : Bool) : HandlerAction AddCommentCall :=
  if jsTrim commentText = "" then .blocked "Comment cannot be empty"
  else
    match userId with
    | none => .blocked "You must be logged in to comment"
    | some uid =>
      if !hasOnAddComment then .blocked "Comment feature not available"
      else
        let finalText :=
          match replyingTo with
          | some c => "@" ++ c.username ++ " " ++ commentText
          | none => commentText
        .proceed ⟨entryId, finalText, uid⟩

/-- One `toggleReaction` call together with the remote responses it
observes. -/
structure ToggleCall where
  entryId : String
  reactionType : Reaction
  userId : String
  fetchResp : RemoteResp (Option EntryAction)
  updateResp : RemoteResp Unit
  insertResp : RemoteResp Unit

/-- Sequential execution of `toggleReaction` calls, each starting from the
previous call's settled collection. -/
def runToggles (entries : List Entry) (calls : List ToggleCall) :
    List Entry :=
  calls.foldl (fun s c =>
    (toggleReaction s c.entryId c.reactionType c.userId
      c.fetchResp c.updateResp c.insertResp).final) entries

/-- The §3 invariant: every entry has non-negative counts. -/
def countsNonneg (entries : List Entry) : Prop :=
  ∀ e ∈ entries, 0 ≤ e.love_count ∧ 0 ≤ e.hate_count

instance : DecidablePred countsNonneg := fun entries =>
  inferInstanceAs (Decidable (∀ e ∈ entries, _ ∧ _))

/-- The §4.2 state-machine table, written from the spec's words and keyed
by the current `viewerReaction`, for comparison with the code's optimistic
update: from `none` the requested count is incremented; from the same
reaction the count is decremented (floored at 0) and the reaction cleared;
from the opposite reaction the old count is decremented (floored at 0) and
the requested count incremented. -/
def specToggleTransition (kind : Reaction) (entry : Entry) : Entry :=
  match entry.userReaction with
  | none =>
    (entry.setCount kind (entry.countOf kind + 1)).withReaction (some kind)
  | some cur =>
    if cur = kind then
      (entry.setCount kind (max 0 (entry.countOf kind - 1))).withReaction none
    else
      ((entry.setCount cur (max 0 (entry.countOf cur - 1))).setCount kind
        (entry.countOf kind + 1)).withReaction (some kind)

lemma Reaction.other_ne (r : Reaction) : r.other ≠ r := by
  cases r <;> simp [Reaction.other]

lemma Reaction.eq_other_of_ne {a b : Reaction} (h : a ≠ b) : a = b.other := by
  cases a <;> cases b <;> simp_all [Reaction.other]

/-- The code's guard-ordered optimistic step agrees with the spec's table,
entry by entry. -/
lemma toggleReactionStep_eq_spec (kind : Reaction) (entryId : String)
    (e : Entry) :
    toggleReactionStep kind entryId e =
      if e.id = entryId then specToggleTransition kind e else e := by
  by_cases hid : e.id = entryId
  · cases hr : e.userReaction with
    | none =>
      simp [toggleReactionStep, specToggleTransition, hid, hr,
        (Reaction.other_ne kind).symm]
    | some cur =>
      by_cases hc : cur = kind
      · subst hc
        simp [toggleReactionStep, specToggleTransition, hid, hr]
      · have hco : cur = kind.other := Reaction.eq_other_of_ne hc
        subst hco
        simp [toggleReactionStep, specToggleTransition, hid, hr, hc]
  · simp [toggleReactionStep, hid]

/-- C1: the optimistic state `toggleReaction` renders immediately — before
any remote response is observed — is the collection with the §4.2
state-machine transition applied to the one matching entry and every other
entry untouched; moreover that optimistic state is the same whatever the
remote responses later turn out to be. -/
theorem toggleReaction_applies_state_machine_optimistically
    (entries : List Entry) (entryId : String) (kind : Reaction)
    (userId : String) (fetchResp : RemoteResp (Option EntryAction))
    (updateResp insertResp : RemoteResp Unit) :
    (toggleReaction entries entryId kind userId fetchResp updateResp
        insertResp).optimistic =
      entries.map (fun e =>
        if e.id = entryId then specToggleTransition kind e else e) ∧
    ∀ (fetchResp2 : RemoteResp (Option EntryAction))
      (updateResp2 insertResp2 : RemoteResp Unit),
      (toggleReaction entries entryId kind userId fetchResp2 updateResp2
          insertResp2).optimistic =
        (toggleReaction entries entryId kind userId fetchResp updateResp
            insertResp).optimistic := by
  have hopt : ∀ (f : RemoteResp (Option EntryAction))
      (u i : RemoteResp Unit),
      (toggleReaction entries entryId kind userId f u i).optimistic =
        entries.map (toggleReactionStep kind entryId) := by
    intro f u i
    unfold toggleReaction
    rcases f with a | msg
    · rcases a with act | _
      · rcases i with _ | msg <;> rfl
      · rcases u with _ | msg <;> rfl
    · rfl
  constructor
  · rw [hopt]
    exact List.map_congr_left (fun e _ => toggleReactionStep_eq_spec kind entryId e)
  · intro f2 u2 i2
    rw [hopt, hopt]

/-- C2: when any of `toggleReaction`'s remote interactions fails (the read
of the existing reaction record, the update when a record exists, or the
insert when none exists), the settled collection is exactly the
pre-operation snapshot and the result is `{success: false, error:
{message}}`; when the operation succeeds, the settled collection is the
already-applied optimistic state — no further local change and no re-fetch
of the collection. -/
theorem toggleReaction_rollback_on_failure_commit_on_success
    (entries : List Entry) (entryId : String) (kind : Reaction)
    (userId : String) (fetchResp : RemoteResp (Option EntryAction))
    (updateResp insertResp : RemoteResp Unit) :
    (∀ msg, fetchResp = RemoteResp.err msg →
      (toggleReaction entries entryId kind userId fetchResp updateResp
          insertResp).final = entries ∧
      (toggleReaction entries entryId kind userId fetchResp updateResp
          insertResp).result = ⟨false, some ⟨msg⟩⟩) ∧
    (∀ act msg, fetchResp = RemoteResp.ok (some act) →
      updateResp = RemoteResp.err msg →
      (toggleReaction entries entryId kind userId fetchResp updateResp
          insertResp).final = entries ∧
      (toggleReaction entries entryId kind userId fetchResp updateResp
          insertResp).result = ⟨false, some ⟨msg⟩⟩) ∧
    (∀ msg, fetchResp = RemoteResp.ok none →
      insertResp = RemoteResp.err msg →
      (toggleReaction entries entryId kind userId fetchResp updateResp
          insertResp).final = entries ∧
      (toggleReaction entries entryId kind userId fetchResp updateResp
          insertResp).result = ⟨false, some ⟨msg⟩⟩) ∧
    ((toggleReaction entries entryId kind userId fetchResp updateResp
        insertResp).result.success = true →
      (toggleReaction entries entryId kind userId fetchResp updateResp
          insertResp).final =
        (toggleReaction entries entryId kind userId fetchResp updateResp
            insertResp).optimistic ∧
      (toggleReaction entries entryId kind userId fetchResp updateResp
          insertResp).result.error = none) := by
  refine ⟨?_, ?_, ?_, ?_⟩
  · rintro msg rfl
    exact ⟨rfl, rfl⟩
  · rintro act msg rfl rfl
    exact ⟨rfl, rfl⟩
  · rintro msg rfl rfl
    exact ⟨rfl, rfl⟩
  · intro hs
    unfold toggleReaction at *
    rcases fetchResp with a | msg
    · rcases a with act | _
      · rcases insertResp with _ | msg
        · exact ⟨rfl, rfl⟩
        · simp at hs
      · rcases updateResp with _ | msg
        · exact ⟨rfl, rfl⟩
        · simp at hs
    · simp at hs

/-- Witness for C2 at a concrete input: a failing record-read rolls the
collection back and surfaces the message. -/
theorem toggleReaction_rollback_witness :
    (toggleReaction
        [⟨"e1", "t", "b", "2024-01-01", "alice", 0, none, 2, 0, [], "u1",
          none⟩]
        "e1" Reaction.love "u1" (RemoteResp.err "network down")
        (RemoteResp.ok ()) (RemoteResp.ok ())).final =
      [⟨"e1", "t", "b", "2024-01-01", "alice", 0, none, 2, 0, [], "u1",
        none⟩] ∧
    (toggleReaction
        [⟨"e1", "t", "b", "2024-01-01", "alice", 0, none, 2, 0, [], "u1",
          none⟩]
        "e1" Reaction.love "u1" (RemoteResp.err "network down")
        (RemoteResp.ok ()) (RemoteResp.ok ())).result =
      ⟨false, some ⟨"network down"⟩⟩ :=
  (toggleReaction_rollback_on_failure_commit_on_success _ _ _ _ _ _ _).1
    "network down" rfl

/-- C4: the reaction-record write issued by `toggleReaction` keeps the two
count columns mutually exclusive: an update sets the requested column to 0
or 1 and always resets the opposite column to 0, and an insert sets only
the requested column (to 1), leaving the opposite column absent. -/
theorem toggleReaction_payload_mutual_exclusion
    (existingAction : EntryAction) (kind : Reaction)
    (entryId userId : String) :
    ((toggleUpdatePayload existingAction kind).countOf kind = 0 ∨
      (toggleUpdatePayload existingAction kind).countOf kind = 1) ∧
    (toggleUpdatePayload existingAction kind).countOf kind.other = 0 ∧
    (toggleInsertPayload entryId userId kind).countOf kind = some 1 ∧
    (toggleInsertPayload entryId userId kind).countOf kind.other = none := by
  cases kind <;>
    simp [toggleUpdatePayload, toggleInsertPayload, mkUpdatePayload,
      Reaction.other, ReactionUpdatePayload.countOf,
      ReactionInsertPayload.countOf] <;>
    omega

/-- C6: if the remote delete fails, `deleteEntry` leaves the collection
deep-equal to the pre-operation snapshot (whole-snapshot restore, not a
partial patch) and returns the typed error. -/
theorem deleteEntry_failure_restores_snapshot
    (entries : List Entry) (id msg : String) :
    (deleteEntry entries id (RemoteResp.err msg)).final = entries ∧
    (deleteEntry entries id (RemoteResp.err msg)).result =
      ⟨false, some ⟨msg⟩⟩ :=
  ⟨rfl, rfl⟩

/-- C10: if the remote fetch fails, `fetchEntries` leaves the previously
held collection untouched, records the failure as `{message}` in the error
state, and resets the loading flag. -/
theorem fetchEntries_failure_keeps_stale_entries
    (s : HookState) (msg : String) :
    fetchEntries s (RemoteResp.err msg) =
      ⟨s.entries, false, some ⟨msg, none⟩⟩ :=
  rfl

/-- A successful `toggleReaction` settles on the optimistic state. -/
lemma toggleReaction_success_final (entries : List Entry) (entryId : String)
    (kind : Reaction) (userId : String)
    (fetchResp : RemoteResp (Option EntryAction))
    (updateResp insertResp : RemoteResp Unit)
    (hs : (toggleReaction entries entryId kind userId fetchResp updateResp
        insertResp).result.success = true) :
    (toggleReaction entries entryId kind userId fetchResp updateResp
        insertResp).final =
      entries.map (toggleReactionStep kind entryId) := by
  unfold toggleReaction at *
  rcases fetchResp with a | msg
  · rcases a with act | _
    · rcases insertResp with _ | msg
      · rfl
      · simp at hs
    · rcases updateResp with _ | msg
      · rfl
      · simp at hs
  · simp at hs

/-- Counterexample to C3 as stated: for an entry whose viewer already
loves it, toggling "love" twice (both calls succeeding remotely) ends with
`viewerReaction = love` again — not `none` — even though the starting
state satisfies the invariant (`viewerReaction = love` with
`loveCount = 1`). -/
theorem toggleReaction_double_love_counterexample :
    (toggleReaction
        (toggleReaction
            [⟨"e1", "t", "b", "2024-01-01", "alice", 0, none, 1, 0, [],
              "u1", some Reaction.love⟩]
            "e1" Reaction.love "u1"
            (RemoteResp.ok (some ⟨"a1", "e1", "u1", some 1, some 0⟩))
            (RemoteResp.ok ()) (RemoteResp.ok ())).final
        "e1" Reaction.love "u1"
        (RemoteResp.ok (some ⟨"a1", "e1", "u1", some 0, some 0⟩))
        (RemoteResp.ok ()) (RemoteResp.ok ())).result.success = true ∧
    (toggleReaction
        [⟨"e1", "t", "b", "2024-01-01", "alice", 0, none, 1, 0, [],
          "u1", some Reaction.love⟩]
        "e1" Reaction.love "u1"
        (RemoteResp.ok (some ⟨"a1", "e1", "u1", some 1, some 0⟩))
        (RemoteResp.ok ()) (RemoteResp.ok ())).result.success = true ∧
    (toggleReaction
        (toggleReaction
            [⟨"e1", "t", "b", "2024-01-01", "alice", 0, none, 1, 0, [],
              "u1", some Reaction.love⟩]
            "e1" Reaction.love "u1"
            (RemoteResp.ok (some ⟨"a1", "e1", "u1", some 1, some 0⟩))
            (RemoteResp.ok ()) (RemoteResp.ok ())).final
        "e1" Reaction.love "u1"
        (RemoteResp.ok (some ⟨"a1", "e1", "u1", some 0, some 0⟩))
        (RemoteResp.ok ()) (RemoteResp.ok ())).final.map Entry.userReaction =
      [some Reaction.love] ∧
    ([some Reaction.love] : List (Option Reaction)) ≠ [none] := by
  refine ⟨by decide, by decide, by decide, by decide⟩

/-- C3 amended: two successive successful `toggleReaction(e, love, u)`
calls act per entry as the optimistic step applied twice; on the targeted
entry, provided the starting state satisfies the invariant
(`loveCount ≥ 0`, and `viewerReaction = love` implies `loveCount ≥ 1`),
`loveCount` is restored to its pre-first-call value and `viewerReaction`
returns to `none` whenever it did not start at `love`; when it started at
`love` the two calls are the identity there, ending at `love`, not `none`. -/
theorem toggleReaction_double_love_amended
    (entries : List Entry) (entryId userId : String)
    (f1 f2 : RemoteResp (Option EntryAction))
    (u1 i1 u2 i2 : RemoteResp Unit)
    (h1 : (toggleReaction entries entryId Reaction.love userId f1 u1
        i1).result.success = true)
    (h2 : (toggleReaction
        (toggleReaction entries entryId Reaction.love userId f1 u1 i1).final
        entryId Reaction.love userId f2 u2 i2).result.success = true) :
    (toggleReaction
        (toggleReaction entries entryId Reaction.love userId f1 u1 i1).final
        entryId Reaction.love userId f2 u2 i2).final =
      entries.map (fun e =>
        toggleReactionStep Reaction.love entryId
          (toggleReactionStep Reaction.love entryId e)) ∧
    ∀ e : Entry, e.id = entryId → 0 ≤ e.love_count →
      (e.userReaction = some Reaction.love → 1 ≤ e.love_count) →
      (toggleReactionStep Reaction.love entryId
          (toggleReactionStep Reaction.love entryId e)).love_count =
        e.love_count ∧
      (toggleReactionStep Reaction.love entryId
          (toggleReactionStep Reaction.love entryId e)).userReaction =
        (if e.userReaction = some Reaction.love then some Reaction.love
          else none) := by
  constructor
  · rw [toggleReaction_success_final _ _ _ _ _ _ _ h2,
      toggleReaction_success_final _ _ _ _ _ _ _ h1, List.map_map]
    rfl
  · intro e hid hnn hinv
    cases hr : e.userReaction with
    | none =>
      constructor <;>
        simp [toggleReactionStep, hid, hr, Entry.setCount,
          Entry.withReaction, Entry.countOf, Reaction.other] <;>
        omega
    | some cur =>
      cases cur with
      | love =>
        have h1le := hinv hr
        constructor <;>
          simp [toggleReactionStep, hid, hr, Entry.setCount,
            Entry.withReaction, Entry.countOf, Reaction.other] <;>
          omega
      | hate =>
        constructor <;>
          simp [toggleReactionStep, hid, hr, Entry.setCount,
            Entry.withReaction, Entry.countOf, Reaction.other] <;>
          omega

/-- Witness for the amended C3 at a concrete input: starting from
`viewerReaction = love, loveCount = 1`, two successful toggles restore
`loveCount = 1` and end back at `love`. -/
theorem toggleReaction_double_love_amended_witness :
    (toggleReactionStep Reaction.love "e1"
        (toggleReactionStep Reaction.love "e1"
          ⟨"e1", "t", "b", "2024-01-01", "alice", 0, none, 1, 0, [], "u1",
            some Reaction.love⟩)).love_count =
      (⟨"e1", "t", "b", "2024-01-01", "alice", 0, none, 1, 0, [], "u1",
        some Reaction.love⟩ : Entry).love_count ∧
    (toggleReactionStep Reaction.love "e1"
        (toggleReactionStep Reaction.love "e1"
          ⟨"e1", "t", "b", "2024-01-01", "alice", 0, none, 1, 0, [], "u1",
            some Reaction.love⟩)).userReaction =
      (if (⟨"e1", "t", "b", "2024-01-01", "alice", 0, none, 1, 0, [], "u1",
          some Reaction.love⟩ : Entry).userReaction = some Reaction.love
        then some Reaction.love else none) :=
  (toggleReaction_double_love_amended
      [⟨"e1", "t", "b", "2024-01-01", "alice", 0, none, 1, 0, [], "u1",
        some Reaction.love⟩]
      "e1" "u1"
      (RemoteResp.ok (some ⟨"a1", "e1", "u1", some 1, some 0⟩))
      (RemoteResp.ok (some ⟨"a1", "e1", "u1", some 0, some 0⟩))
      (RemoteResp.ok ()) (RemoteResp.ok ()) (RemoteResp.ok ())
      (RemoteResp.ok ()) (by decide) (by decide)).2
    _ rfl (by decide) (by decide)

/-- The optimistic step keeps both counts non-negative: every decrement is
floored at 0 by `Math.max` and increments start from a non-negative
count. -/
lemma toggleReactionStep_nonneg (kind : Reaction) (entryId : String)
    (e : Entry) (hl : 0 ≤ e.love_count) (hh : 0 ≤ e.hate_count) :
    0 ≤ (toggleReactionStep kind entryId e).love_count ∧
      0 ≤ (toggleReactionStep kind entryId e).hate_count := by
  rw [toggleReactionStep_eq_spec]
  by_cases hid : e.id = entryId
  · rw [if_pos hid]
    cases hr : e.userReaction with
    | none =>
      cases kind <;> constructor <;>
        simp [specToggleTransition, hr, Entry.setCount, Entry.withReaction,
          Entry.countOf] <;>
        omega
    | some cur =>
      cases cur <;> cases kind <;> constructor <;>
        simp [specToggleTransition, hr, Entry.setCount, Entry.withReaction,
          Entry.countOf, Reaction.other] <;>
        omega
  · rw [if_neg hid]
    exact ⟨hl, hh⟩

/-- `toggleReaction` settles either on the restored snapshot or on the
optimistic state. -/
lemma toggleReaction_final_cases (entries : List Entry) (entryId : String)
    (kind : Reaction) (userId : String)
    (fetchResp : RemoteResp (Option EntryAction))
    (updateResp insertResp : RemoteResp Unit) :
    (toggleReaction entries entryId kind userId fetchResp updateResp
        insertResp).final = entries ∨
    (toggleReaction entries entryId kind userId fetchResp updateResp
        insertResp).final =
      entries.map (toggleReactionStep kind entryId) := by
  unfold toggleReaction
  rcases fetchResp with a | msg
  · rcases a with act | _
    · rcases insertResp with _ | msg
      · exact Or.inr rfl
      · exact Or.inl rfl
    · rcases updateResp with _ | msg
      · exact Or.inr rfl
      · exact Or.inl rfl
  · exact Or.inl rfl

lemma countsNonneg_of_step (kind : Reaction) (entryId : String)
    (entries : List Entry) (h : countsNonneg entries) :
    countsNonneg (entries.map (toggleReactionStep kind entryId)) := by
  intro e he
  rcases List.mem_map.mp he with ⟨a, ha, rfl⟩
  exact toggleReactionStep_nonneg kind entryId a (h a ha).1 (h a ha).2

lemma runToggles_nonneg (calls : List ToggleCall) (entries : List Entry)
    (h : countsNonneg entries) : countsNonneg (runToggles entries calls) := by
  induction calls generalizing entries with
  | nil => exact h
  | cons c cs ih =>
    have hstep : countsNonneg
        ((toggleReaction entries c.entryId c.reactionType c.userId
          c.fetchResp c.updateResp c.insertResp).final) := by
      rcases toggleReaction_final_cases entries c.entryId c.reactionType
          c.userId c.fetchResp c.updateResp c.insertResp with hc | hc
      · rw [hc]; exact h
      · rw [hc]; exact countsNonneg_of_step _ _ _ h
    exact ih _ hstep

lemma foldl_add_nonneg (f : RawAction → Option Int) (l : List RawAction)
    (init : Int) (hinit : 0 ≤ init)
    (h : ∀ a ∈ l, 0 ≤ jsOrZero (f a)) :
    0 ≤ l.foldl (fun sum action => sum + jsOrZero (f action)) init := by
  induction l generalizing init with
  | nil => exact hinit
  | cons a as ih =>
    have h0 : 0 ≤ jsOrZero (f a) := h a (List.mem_cons_self a as)
    exact ih (init + jsOrZero (f a)) (by omega)
      (fun x hx => h x (List.mem_cons_of_mem a hx))

/-- C5: starting from any collection satisfying the non-negativity
invariant, every entry still has `loveCount ≥ 0` and `hateCount ≥ 0` after
an arbitrary sequence of `toggleReaction` calls with arbitrary remote
outcomes; and the fetch-time aggregation yields non-negative counts
whenever each stored reaction record contributes a non-negative (or null)
value. -/
theorem toggleReaction_counts_nonneg
    (entries : List Entry) (calls : List ToggleCall)
    (h : countsNonneg entries) :
    countsNonneg (runToggles entries calls) ∧
    ∀ rows : List RawEntry,
      (∀ row ∈ rows, ∀ acts, row.entry_actions = some acts →
        ∀ a ∈ acts, 0 ≤ jsOrZero a.love_count ∧ 0 ≤ jsOrZero a.hate_count) →
      countsNonneg (transformRows rows) := by
  refine ⟨runToggles_nonneg calls entries h, ?_⟩
  intro rows hrows e he
  rcases List.mem_map.mp he with ⟨row, hrow, rfl⟩
  have hagg : ∀ pick : RawAction → Option Int,
      (∀ acts, row.entry_actions = some acts →
        ∀ a ∈ acts, 0 ≤ jsOrZero (pick a)) →
      0 ≤ aggregateCount row.entry_actions pick := by
    intro pick hp
    unfold aggregateCount
    cases hacts : row.entry_actions with
    | none => simp
    | some acts => exact foldl_add_nonneg pick acts 0 le_rfl (hp acts hacts)
  constructor
  · exact hagg (fun a => a.love_count)
      (fun acts hacts a ha => (hrows row hrow acts hacts a ha).1)
  · exact hagg (fun a => a.hate_count)
      (fun acts hacts a ha => (hrows row hrow acts hacts a ha).2)

/-- Witness for C5 at a concrete input: one toggle on a two-entry
collection keeps all counts non-negative. -/
theorem toggleReaction_counts_nonneg_witness :
    countsNonneg (runToggles
      [⟨"e1", "t", "b", "2024-01-01", "alice", 0, none, 0, 0, [], "u1",
        none⟩,
       ⟨"e2", "s", "c", "2024-01-02", "bob", 1, none, 3, 2, [], "u2",
        some Reaction.hate⟩]
      [⟨"e2", Reaction.love, "u1", RemoteResp.ok none, RemoteResp.ok (),
        RemoteResp.ok ()⟩]) :=
  (toggleReaction_counts_nonneg _ _ (by decide)).1

/-- Counterexample to C7 as stated: the engine's `createEntry` performs no
validation — called with an empty `draft.title` it still issues the remote
insert, and when that insert succeeds it returns no error at all and
prepends the new entry to the collection. -/
theorem createEntry_empty_title_counterexample :
    (createEntry [] ⟨"", "body", "2024-01-01", none, "u1"⟩
        (RemoteResp.ok
          (some ⟨"id1", "", "body", "2024-01-01", 5, none, "u1",
            some "alice"⟩))).error = none ∧
    (createEntry [] ⟨"", "body", "2024-01-01", none, "u1"⟩
        (RemoteResp.ok
          (some ⟨"id1", "", "body", "2024-01-01", 5, none, "u1",
            some "alice"⟩))).final ≠ ([] : List Entry) ∧
    (addComment [] "e1" "" "u1"
        (RemoteResp.ok (some ⟨"c1", "", 7, "u1", some "alice"⟩))).error =
      none := by
  refine ⟨by decide, by decide, by decide⟩

/-- C7 amended: the empty-title, empty-text and missing-user checks are
performed by the Presentation layer, before the engine is invoked — a
blank title short-circuits `handleCreateEntry` with "Please enter a
title", an empty comment text short-circuits `handleAddComment` with
"Comment cannot be empty", and a missing user short-circuits either
handler — so no remote call and no state change happens; the engine
operations themselves (`createEntry`, `addComment`) perform no
validation. -/
theorem validation_happens_in_presentation_layer
    (title text : String) (user : Option String) (today : String)
    (previewImage : Option String) (entryId commentText : String)
    (userId : Option String) (replyingTo : Option Comment)
    (hasOnAddComment : Bool) :
    (jsTrim title = "" →
      handleCreateEntry title text user today previewImage =
        HandlerAction.blocked "Please enter a title") ∧
    (jsTrim title ≠ "" → user = none →
      handleCreateEntry title text user today previewImage =
        HandlerAction.blocked "Please sign in to create an entry") ∧
    (jsTrim commentText = "" →
      handleAddComment entryId commentText userId replyingTo
          hasOnAddComment =
        HandlerAction.blocked "Comment cannot be empty") ∧
    (jsTrim commentText ≠ "" → userId = none →
      handleAddComment entryId commentText userId replyingTo
          hasOnAddComment =
        HandlerAction.blocked "You must be logged in to comment") := by
  refine ⟨?_, ?_, ?_, ?_⟩
  · intro h
    simp [handleCreateEntry, h]
  · rintro h rfl
    simp [handleCreateEntry, h]
  · intro h
    simp [handleAddComment, h]
  · rintro h rfl
    simp [handleAddComment, h]

/-- Witness for the amended C7 at concrete inputs: a whitespace-only title
and an empty comment text are both blocked before any engine call. -/
theorem validation_presentation_witness :
    handleCreateEntry "   " "body" (some "u1") "2024-01-01" none =
      HandlerAction.blocked "Please enter a title" ∧
    handleAddComment "e1" "" (some "u1") none true =
      HandlerAction.blocked "Comment cannot be empty" :=
  ⟨(validation_happens_in_presentation_layer "   " "body" (some "u1")
      "2024-01-01" none "e1" "" (some "u1") none true).1 (by decide),
   (validation_happens_in_presentation_layer "   " "body" (some "u1")
      "2024-01-01" none "e1" "" (some "u1") none true).2.2.1 (by decide)⟩

/-- Counterexample to C8 as stated: `updateEntry` never checks local
existence, so for an id absent from the local collection it surfaces no
error when the remote update succeeds — it returns success, not a
NotFoundError-equivalent. -/
theorem updateEntry_absent_id_counterexample :
    (updateEntry ([] : List Entry) "ghost" ⟨some "t2", none, none, none⟩
        (RemoteResp.ok (some ⟨some "alice"⟩))).error = none ∧
    (updateEntry ([] : List Entry) "ghost" ⟨some "t2", none, none, none⟩
        (RemoteResp.ok (some ⟨some "alice"⟩))).dataReturned = true := by
  refine ⟨by decide, by decide⟩

/-- C8 amended: for an id absent from the local collection `updateEntry`
never mutates the collection (the by-id merge matches nothing), whatever
the remote outcome; and an error is surfaced exactly when the remote
update fails — which is how a remotely-deleted id manifests, since
`.single()` errors on zero rows — while a successful remote response
yields success. -/
theorem updateEntry_absent_id_no_mutation
    (entries : List Entry) (id : String) (updates : UpdateFields)
    (updateResp : RemoteResp (Option UpdateRow))
    (habs : ∀ e ∈ entries, e.id ≠ id) :
    (updateEntry entries id updates updateResp).final = entries ∧
    (∀ msg, updateResp = RemoteResp.err msg →
      (updateEntry entries id updates updateResp).error = some ⟨msg⟩) := by
  constructor
  · rcases updateResp with row | msg
    · rcases row with _ | row
      · rfl
      · unfold updateEntry
        simp only
        calc entries.map (fun entry =>
              if entry.id = id then
                { applyUpdates entry updates with
                  username := row.username.getD entry.username }
              else entry)
            = entries.map (fun entry => entry) :=
              List.map_congr_left (fun e he => by
                simp [habs e he])
          _ = entries := List.map_id' entries
    · rfl
  · rintro msg rfl
    rfl

/-- Witness for the amended C8 at a concrete input: updating an id that is
not in the (single-entry) collection leaves it unchanged, and a failing
remote surfaces the message. -/
theorem updateEntry_absent_id_witness :
    (updateEntry
        [⟨"e1", "t", "b", "2024-01-01", "alice", 0, none, 0, 0, [], "u1",
          none⟩]
        "ghost" ⟨some "t2", none, none, none⟩
        (RemoteResp.err "row not found")).final =
      [⟨"e1", "t", "b", "2024-01-01", "alice", 0, none, 0, 0, [], "u1",
        none⟩] ∧
    (updateEntry
        [⟨"e1", "t", "b", "2024-01-01", "alice", 0, none, 0, 0, [], "u1",
          none⟩]
        "ghost" ⟨some "t2", none, none, none⟩
        (RemoteResp.err "row not found")).error = some ⟨"row not found"⟩ :=
  ⟨(updateEntry_absent_id_no_mutation _ _ _ _ (by decide)).1,
   (updateEntry_absent_id_no_mutation _ _ _ _ (by decide)).2
     "row not found" rfl⟩

/-- Newest-first order on a comment list: descending `created_at`. -/
def commentsNewestFirst (l : List Comment) : Prop :=
  l.Pairwise (fun a b => b.created_at ≤ a.created_at)

instance : DecidablePred commentsNewestFirst := fun l =>
  inferInstanceAs (Decidable (l.Pairwise _))

/-- Descending `created_at` order on the entries collection. -/
def entriesNewestFirst (l : List Entry) : Prop :=
  l.Pairwise (fun a b => b.created_at ≤ a.created_at)

instance : DecidablePred entriesNewestFirst := fun l =>
  inferInstanceAs (Decidable (l.Pairwise _))

lemma commentLeNewest_trans : ∀ a b c : Comment,
    commentLeNewest a b → commentLeNewest b c → commentLeNewest a c := by
  intro a b c hab hbc
  simp only [commentLeNewest, decide_eq_true_eq] at *
  omega

lemma commentLeNewest_total : ∀ a b : Comment,
    commentLeNewest a b || commentLeNewest b a := by
  intro a b
  simp only [commentLeNewest, Bool.or_eq_true, decide_eq_true_eq]
  omega

/-- The comment sort in `fetchEntries` really produces a newest-first
list. -/
lemma sortCommentsNewestFirst_sorted (l : List Comment) :
    commentsNewestFirst (sortCommentsNewestFirst l) := by
  have h := List.sorted_mergeSort commentLeNewest_trans commentLeNewest_total l
  exact h.imp (fun hab => by
    simpa [commentLeNewest] using hab)

/-- C9: if the remote returns the rows in the descending `created_at`
order the query requests, the collection after a fetch is sorted
descending by `created_at`; every fetched entry's comment list is sorted
newest-first; and after a successful `addComment` the target entry's
comment list has the newly created comment at index 0. -/
theorem ordering_after_fetch_and_addComment :
    (∀ rows : List RawEntry,
      rows.Pairwise (fun a b => b.created_at ≤ a.created_at) →
      entriesNewestFirst (transformRows rows)) ∧
    (∀ rows : List RawEntry, ∀ e ∈ transformRows rows,
      commentsNewestFirst e.comments) ∧
    (∀ (entries : List Entry) (entryId text userId : String)
      (row : CommentInsertRow),
      ∀ e ∈ (addComment entries entryId text userId
          (RemoteResp.ok (some row))).final,
        e.id = entryId →
        ∃ rest, e.comments = commentFromRow entryId row :: rest) := by
  refine ⟨?_, ?_, ?_⟩
  · intro rows h
    unfold transformRows entriesNewestFirst
    rw [List.pairwise_map]
    exact h.imp (fun hab => hab)
  · intro rows e he
    rcases List.mem_map.mp he with ⟨row, _, rfl⟩
    exact sortCommentsNewestFirst_sorted _
  · intro entries entryId text userId row e he hid
    rcases List.mem_map.mp he with ⟨a, _, rfl⟩
    by_cases h : a.id = entryId
    · refine ⟨a.comments, ?_⟩
      simp [h]
    · rw [if_neg h] at hid
      exact absurd hid h

/-- Witness for C9 at concrete inputs: two rows arriving newest-first stay
sorted after the transform, and a concrete `addComment` leaves the new
comment at the head of the target entry's list. -/
theorem ordering_after_fetch_witness :
    entriesNewestFirst (transformRows
      [⟨"e1", "t", "b", "d", 10, none, "u1", some "alice", none,
        some [⟨"c1", "x", 3, "u1", none⟩, ⟨"c2", "y", 9, "u2", none⟩]⟩,
       ⟨"e2", "s", "c", "d", 4, none, "u2", none, none, none⟩]) ∧
    (∃ rest,
      (⟨"e1", "t", "b", "d", "alice", 0, none, 0, 0,
        [⟨"c9", "e1", "hi", "alice", 42, "u1"⟩], "u1", none⟩ : Entry).comments
        = commentFromRow "e1" ⟨"c9", "hi", 42, "u1", some "alice"⟩ :: rest) :=
  ⟨ordering_after_fetch_and_addComment.1 _ (by decide),
   ordering_after_fetch_and_addComment.2.2
     [⟨"e1", "t", "b", "d", "alice", 0, none, 0, 0, [], "u1", none⟩]
     "e1" "hi" "u1" ⟨"c9", "hi", 42, "u1", some "alice"⟩
     _ (by decide) (by decide)⟩

end DreamJournal
